import Mathlib

/-!
Verification of the prosemirror-autopairs repository.

The repository contains two near-identical variants of the same library:
the package variant (packages/prosemirror-autopairs/src/lib: pairs.ts,
utils.ts, autopairs.ts) and the root variant (src/lib: chars.ts, config.ts,
keymap.ts, autopairs.ts).  Both are embedded below: namespace `Pairs` holds
the package taxonomy (pairs.ts), namespace `Chars` holds the root taxonomy
(chars.ts), namespace `Utils` holds the adjacency helpers (utils.ts, which
is line-for-line identical in both variants), and the editing handlers of
the two autopairs.ts files are embedded at top level under their source
names.

Modelling conventions:
- TypeScript characters are Lean `String`s (one-codepoint strings in the
  tables); parameters typed `unknown` in the source become `Option String`,
  with `none` standing for `undefined` and any other non-string value.
- JavaScript string concatenation with `undefined` is `jsConcat`, which
  yields the text "undefined", matching JS coercion.
- The ProseMirror editor state is reduced to the fields the handlers read:
  the document text of a single text block, the selection boundaries, and
  the resolved nodes immediately before and after the selection head.
  Positions are plain character offsets into that text.
- A dispatched ProseMirror transaction becomes an `Edit` value; a handler
  returns `some edit` where the command returns true (handled, transaction
  dispatched) and `none` where it returns false (unhandled).
-/

namespace Pairs

/-- The double-quote character as a one-character string. -/
def DQ : String := "\""

/-- The single-quote character as a one-character string (code point 39). -/
def SQ : String := String.singleton (Char.ofNat 39)

/-- pairs.ts OPEN_CLOSE_MAPPING: opening character to closing character,
in source insertion order (angle, curly, round, square, double, single). -/
def OPEN_CLOSE_MAPPING : List (String × String) :=
  [("<", ">"), ("\x7b", "\x7d"), ("(", ")"), ("[", "]"), (DQ, DQ), (SQ, SQ)]

/-- pairs.ts ALL_OPENING_CHARS = Object.keys(OPEN_CLOSE_MAPPING). -/
def ALL_OPENING_CHARS : List String := OPEN_CLOSE_MAPPING.map Prod.fst

/-- pairs.ts ALL_CLOSING_CHARS = Object.values(OPEN_CLOSE_MAPPING). -/
def ALL_CLOSING_CHARS : List String := OPEN_CLOSE_MAPPING.map Prod.snd

/-- pairs.ts ALL_AUTOPAIR_CHARS = opening list followed by closing list. -/
def ALL_AUTOPAIR_CHARS : List String := ALL_OPENING_CHARS ++ ALL_CLOSING_CHARS

/-- pairs.ts isQuote. -/
def isQuote (c : String) : Bool := c == DQ || c == SQ

/-- pairs.ts isOpeningCharacter restricted to string inputs
(non-string inputs fail the isString guard; see `isOpeningCharacterU`). -/
def isOpeningCharacter (c : String) : Bool := ALL_OPENING_CHARS.contains c

/-- pairs.ts isClosingCharacter restricted to string inputs. -/
def isClosingCharacter (c : String) : Bool := ALL_CLOSING_CHARS.contains c

/-- pairs.ts isMatchingCharacter restricted to string inputs. -/
def isMatchingCharacter (c : String) : Bool := ALL_AUTOPAIR_CHARS.contains c

/-- pairs.ts isOpeningCharacter on an `unknown` value:
isString(char) and membership in ALL_OPENING_CHARS. -/
def isOpeningCharacterU (c : Option String) : Bool :=
  match c with
  | some s => isOpeningCharacter s
  | none => false

/-- pairs.ts isMatchingCharacter on an `unknown` value. -/
def isMatchingCharacterU (c : Option String) : Bool :=
  match c with
  | some s => isMatchingCharacter s
  | none => false

/-- pairs.ts getClosingCharacter: OPEN_CLOSE_MAPPING[char],
`undefined` (here `none`) when the key is absent. -/
def getClosingCharacter (c : String) : Option String := OPEN_CLOSE_MAPPING.lookup c

/-- pairs.ts isMatchingPair over `unknown` inputs: charBefore must be an
opening character, charAfter a closing character, and the mapped closing
of charBefore must equal charAfter. -/
def isMatchingPair (charBefore charAfter : Option String) : Bool :=
  match charBefore, charAfter with
  | some b, some a =>
      isOpeningCharacter b && isClosingCharacter a && (getClosingCharacter b == some a)
  | _, _ => false

end Pairs

namespace Chars

/-- chars.ts AUTOPAIR_CHAR_MAP, same six entries and order as the package
variant OPEN_CLOSE_MAPPING. -/
def AUTOPAIR_CHAR_MAP : List (String × String) := Pairs.OPEN_CLOSE_MAPPING

/-- chars.ts ALL_AUTOPAIR_CHARS = Object.keys(map) ++ Object.values(map). -/
def ALL_AUTOPAIR_CHARS : List String :=
  AUTOPAIR_CHAR_MAP.map Prod.fst ++ AUTOPAIR_CHAR_MAP.map Prod.snd

/-- chars.ts isOpeningChar: isString(char) and membership in
ALL_AUTOPAIR_CHARS (the full list, not the opening half). -/
def isOpeningChar (c : Option String) : Bool :=
  match c with
  | some s => ALL_AUTOPAIR_CHARS.contains s
  | none => false

/-- chars.ts isClosingChar: identical body to isOpeningChar. -/
def isClosingChar (c : Option String) : Bool :=
  match c with
  | some s => ALL_AUTOPAIR_CHARS.contains s
  | none => false

/-- chars.ts isAutopairChar: identical body again. -/
def isAutopairChar (c : Option String) : Bool :=
  match c with
  | some s => ALL_AUTOPAIR_CHARS.contains s
  | none => false

/-- chars.ts isQuoteChar. -/
def isQuoteChar (c : String) : Bool := c == Pairs.DQ || c == Pairs.SQ

/-- chars.ts findClosingMatch: AUTOPAIR_CHAR_MAP[char]. -/
def findClosingMatch (c : String) : Option String := AUTOPAIR_CHAR_MAP.lookup c

/-- chars.ts findOpeningMatch: first entry whose value equals the input. -/
def findOpeningMatch (c : String) : Option String :=
  (AUTOPAIR_CHAR_MAP.find? (fun p => p.2 == c)).map Prod.fst

/-- chars.ts isMatchingPair over `unknown` inputs. -/
def isMatchingPair (charBefore charAfter : Option String) : Bool :=
  match charBefore, charAfter with
  | some b, some a =>
      isOpeningChar (some b) && isClosingChar (some a) && (findClosingMatch b == some a)
  | _, _ => false

end Chars

example : Pairs.isOpeningCharacter "(" = true := by decide
example : Pairs.isOpeningCharacter ")" = false := by decide
example : Pairs.isClosingCharacter ")" = true := by decide
example : Chars.isOpeningChar (some ")") = true := by decide
example : Pairs.getClosingCharacter "(" = some ")" := by decide
example : Pairs.isMatchingPair (some "(") (some ")") = true := by decide
example : Pairs.isMatchingPair (some "(") (some "\x7d") = false := by decide
example : Chars.findOpeningMatch ">" = some "<" := by decide

/-- A ProseMirror node, reduced to what the handlers read: the isText flag
and, for text nodes, the text content. -/
structure PMNode where
  isText : Bool
  text : String
deriving DecidableEq, Repr

/-- The editor state as consumed by the handlers: the text of the single
text block, the selection boundaries (character offsets), and the resolved
nodes immediately before and after the selection head. -/
structure EditorState where
  docText : String
  selFrom : Nat
  selTo : Nat
  nodeBefore : Option PMNode
  nodeAfter : Option PMNode
deriving DecidableEq, Repr

/-- selection.empty. -/
def EditorState.selEmpty (s : EditorState) : Bool := s.selFrom == s.selTo

/-- state.doc.textBetween(from, to). -/
def EditorState.textBetween (s : EditorState) : String :=
  String.mk ((s.docText.toList.drop s.selFrom).take (s.selTo - s.selFrom))

/-- Builds the state of a single-text-block document with selection
[f, t): the nodes around the selection head are the text before and after
offset f, absent at the document boundaries.  Used for concrete inputs. -/
def mkTextState (doc : String) (f t : Nat) : EditorState :=
  { docText := doc
    selFrom := f
    selTo := t
    nodeBefore := if f == 0 then none else some ⟨true, String.mk (doc.toList.take f)⟩
    nodeAfter := if f == doc.length then none else some ⟨true, String.mk (doc.toList.drop f)⟩ }

/-- One dispatched transaction: the four edit shapes the handlers produce. -/
inductive Edit where
  /-- tr.replaceWith(from, to, text) followed by setSelection(cursor). -/
  | replaceRange (f t : Nat) (text : String) (cursor : Nat)
  /-- tr.setSelection(cursor) with no text mutation. -/
  | moveCursor (cursor : Nat)
  /-- tr.insertText(text, pos) followed by setSelection(cursor). -/
  | insertAt (pos : Nat) (text : String) (cursor : Nat)
  /-- tr.delete(f, t); the cursor falls back to the host default f. -/
  | deleteRange (f t : Nat)
deriving DecidableEq, Repr

/-- Applies an edit to a document text, returning the new text and cursor. -/
def applyEdit (doc : String) (e : Edit) : String × Nat :=
  match e with
  | .replaceRange f t txt cur =>
      (String.mk (doc.toList.take f) ++ txt ++ String.mk (doc.toList.drop t), cur)
  | .moveCursor cur => (doc, cur)
  | .insertAt p txt cur =>
      (String.mk (doc.toList.take p) ++ txt ++ String.mk (doc.toList.drop p), cur)
  | .deleteRange f t => (String.mk (doc.toList.take f) ++ String.mk (doc.toList.drop t), f)

namespace Utils

/-- utils.ts isTextNode: node is present and node.isText === true. -/
def isTextNode (node : Option PMNode) : Bool :=
  match node with
  | some nd => nd.isText
  | none => false

/-- The JS word-character class from /\w/: ASCII letters, digits, underscore. -/
def isWordChar (c : Char) : Bool := c.isAlphanum || c == '_'

/-- wordCharRegex.test(s): some character of s is a word character. -/
def testWordChar (s : String) : Bool := s.toList.any isWordChar

/-- utils.ts isAdjacentToWordChar. -/
def isAdjacentToWordChar (charBefore charAfter : String) : Bool :=
  testWordChar charBefore || testWordChar charAfter

/-- text.startsWith(char), computed over the character lists so that it
evaluates by kernel reduction. -/
def textStartsWith (s p : String) : Bool := p.toList.isPrefixOf s.toList

/-- utils.ts shouldSkipClosing: empty selection and the text node after the
selection head starts with the typed character. -/
def shouldSkipClosing (state : EditorState) (char : String) : Bool :=
  if !(state.selEmpty) then false
  else
    match state.nodeAfter with
    | some nd => nd.isText && textStartsWith nd.text char
    | none => false

/-- The charBefore extraction of utils.ts shouldAutoClose: the last
character of the text of a nonempty text node, else the empty string. -/
def charBeforeText (node : Option PMNode) : String :=
  match node with
  | some nd =>
      if nd.isText && !(nd.text == "") then
        match nd.text.toList.getLast? with
        | some c => String.singleton c
        | none => ""
      else ""
  | none => ""

/-- The charAfter extraction of utils.ts shouldAutoClose: the first
character of the text of a nonempty text node, else the empty string. -/
def charAfterText (node : Option PMNode) : String :=
  match node with
  | some nd =>
      if nd.isText && !(nd.text == "") then
        match nd.text.toList.head? with
        | some c => String.singleton c
        | none => ""
      else ""
  | none => ""

/-- utils.ts shouldAutoClose: always true on a non-empty selection; for a
quote, false exactly when a neighboring character is a word character;
true for every other character. -/
def shouldAutoClose (state : EditorState) (openChar : String) : Bool :=
  if !(state.selEmpty) then true
  else if Pairs.isQuote openChar then
    let charBefore := charBeforeText state.nodeBefore
    let charAfter := charAfterText state.nodeAfter
    !(isAdjacentToWordChar charBefore charAfter)
  else true

end Utils

/-- JS string concatenation with a possibly undefined operand:
undefined coerces to the text "undefined". -/
def jsConcat (v : Option String) : String :=
  match v with
  | some s => s
  | none => "undefined"

/-- autopairs.ts (package variant) createAutopairInputHandler: the command
for a typed character.  Returns `some edit` where the command dispatches a
transaction and returns true, `none` where it returns false. -/
def createAutopairInputHandler (char : Option String) (state : EditorState) : Option Edit :=
  match char with
  | none => none
  | some c =>
    if !(Pairs.isMatchingCharacter c) then none
    else
      let f := state.selFrom
      let t := state.selTo
      let isOpeningChar := Pairs.isOpeningCharacter c
      let isClosingChar := Pairs.isClosingCharacter c
      let closingChar := Pairs.getClosingCharacter c
      if !(state.selEmpty) then
        -- source guard: if (!isOpeningChar || !isClosingChar) return false
        if !isOpeningChar || !isClosingChar then none
        else
          let selectedText := state.textBetween
          let wrappedText := c ++ selectedText ++ jsConcat closingChar
          some (Edit.replaceRange f t wrappedText (f + wrappedText.length))
      else if isClosingChar && Utils.shouldSkipClosing state c then
        some (Edit.moveCursor (f + 1))
      else if isOpeningChar && Utils.shouldAutoClose state c then
        some (Edit.insertAt f (c ++ jsConcat closingChar) (f + 1))
      else none

/-- autopairs.ts (root variant) createAutopairCommandForChar. -/
def createAutopairCommandForChar (char : Option String) (state : EditorState) : Option Edit :=
  match char with
  | none => none
  | some c =>
    if !(Chars.isAutopairChar (some c)) then none
    else
      let f := state.selFrom
      let t := state.selTo
      if !(state.selEmpty) then
        if !(Chars.isOpeningChar (some c)) then none
        else
          match Chars.findClosingMatch c with
          | none => none
          | some closingChar =>
            let selectedText := state.textBetween
            let wrappedText := c ++ selectedText ++ closingChar
            some (Edit.replaceRange f t wrappedText (f + wrappedText.length))
      else if Chars.isClosingChar (some c) && Utils.shouldSkipClosing state c then
        some (Edit.moveCursor (f + 1))
      else if Chars.isOpeningChar (some c) && Utils.shouldAutoClose state c then
        let closingChar := Chars.findClosingMatch c
        some (Edit.insertAt f (c ++ jsConcat closingChar) (f + 1))
      else none

/-- The charBefore extraction of the backspace handlers:
beforeNode.text[beforeNode.text.length - 1], undefined on empty text. -/
def charAtLast (node : Option PMNode) : Option String :=
  match node with
  | some nd => nd.text.toList.getLast?.map String.singleton
  | none => none

/-- The charAfter extraction of the backspace handlers: afterNode.text[0]. -/
def charAtFirst (node : Option PMNode) : Option String :=
  match node with
  | some nd => nd.text.toList.head?.map String.singleton
  | none => none

/-- autopairs.ts (package variant) createBackspaceInputHandler: deletes the
two characters around an empty cursor when they form a matching pair. -/
def createBackspaceInputHandler (state : EditorState) : Option Edit :=
  if !(state.selEmpty) then none
  else
    let beforeNode := state.nodeBefore
    let afterNode := state.nodeAfter
    if !(Utils.isTextNode beforeNode) || !(Utils.isTextNode afterNode) then none
    else
      let charBefore := charAtLast beforeNode
      let charAfter := charAtFirst afterNode
      if Pairs.isMatchingPair charBefore charAfter then
        some (Edit.deleteRange (state.selFrom - 1) (state.selFrom + 1))
      else none

example : createAutopairInputHandler (some "(") (mkTextState "" 0 0)
    = some (Edit.insertAt 0 "()" 1) := by decide
example : createAutopairInputHandler (some "(") (mkTextState "wrap me" 0 7) = none := by decide
example : createAutopairCommandForChar (some "(") (mkTextState "wrap me" 0 7)
    = some (Edit.replaceRange 0 7 "(wrap me)" 9) := by decide
example : createAutopairInputHandler (some ")") (mkTextState "()" 1 1)
    = some (Edit.moveCursor 2) := by decide
example : createBackspaceInputHandler (mkTextState "()" 1 1)
    = some (Edit.deleteRange 0 2) := by decide
example : createBackspaceInputHandler (mkTextState "(\x7d" 1 1) = none := by decide

/-- The six fixed character groups (TS enum AutopairGroup, identical in
both variants). -/
inductive AutopairGroup where
  | roundBrackets
  | angleBrackets
  | curlyBrackets
  | squareBrackets
  | doubleQuotes
  | singleQuotes
deriving DecidableEq, Repr

/-- The TS string value of each group name. -/
def AutopairGroup.name : AutopairGroup → String
  | .roundBrackets => "roundBrackets"
  | .angleBrackets => "angleBrackets"
  | .curlyBrackets => "curlyBrackets"
  | .squareBrackets => "squareBrackets"
  | .doubleQuotes => "doubleQuotes"
  | .singleQuotes => "singleQuotes"

/-- The character list of each group (AUTOPAIR_GROUPS in pairs.ts and
AUTOPAIR_CHAR_GROUPS in chars.ts carry the same table). -/
def AutopairGroup.chars : AutopairGroup → List String
  | .roundBrackets => ["(", ")"]
  | .angleBrackets => ["<", ">"]
  | .curlyBrackets => ["\x7b", "\x7d"]
  | .squareBrackets => ["[", "]"]
  | .doubleQuotes => [Pairs.DQ]
  | .singleQuotes => [Pairs.SQ]

/-- chars.ts AUTOPAIR_CHAR_GROUPS as the string-keyed record, in source
insertion order (angle, curly, round, square, double, single). -/
def AUTOPAIR_CHAR_GROUPS : List (String × List String) :=
  [("angleBrackets", AutopairGroup.angleBrackets.chars),
   ("curlyBrackets", AutopairGroup.curlyBrackets.chars),
   ("roundBrackets", AutopairGroup.roundBrackets.chars),
   ("squareBrackets", AutopairGroup.squareBrackets.chars),
   ("doubleQuotes", AutopairGroup.doubleQuotes.chars),
   ("singleQuotes", AutopairGroup.singleQuotes.chars)]

/-- The property names a plain JS object literal inherits from
Object.prototype: the JS `in` operator answers true for these on
AUTOPAIR_CHAR_GROUPS although they are not own keys, and reading them
yields the inherited member (a function or the prototype itself, never a
character list). -/
def OBJECT_PROTOTYPE_KEYS : List String :=
  ["constructor", "hasOwnProperty", "isPrototypeOf", "propertyIsEnumerable",
   "toLocaleString", "toString", "valueOf", "__proto__",
   "__defineGetter__", "__defineSetter__", "__lookupGetter__", "__lookupSetter__"]

/-- chars.ts isCharGroup: isString(group) && group in AUTOPAIR_CHAR_GROUPS.
The `in` operator traverses the prototype chain, so beside the six own
keys it also accepts every Object.prototype property name. -/
def isCharGroup (g : Option String) : Bool :=
  match g with
  | some s => (AUTOPAIR_CHAR_GROUPS.lookup s).isSome || OBJECT_PROTOTYPE_KEYS.contains s
  | none => false

/-- The value of the indexed read AUTOPAIR_CHAR_GROUPS[group]: the
character list for an own key, the inherited Object.prototype member for
an inherited property name. -/
inductive JSGroupValue where
  /-- An own entry of the record: a character list. -/
  | charList (chars : List String)
  /-- An inherited Object.prototype member, which is not a character list. -/
  | inheritedMember (name : String)
deriving DecidableEq, Repr

/-- True exactly for a successfully returned character list. -/
def isCharListResult : Except String JSGroupValue → Bool
  | .ok (.charList _) => true
  | _ => false

/-- chars.ts resolveCharGroup: throws (modelled as `.error` carrying the
thrown message) when isCharGroup rejects the input; otherwise returns the
indexed read AUTOPAIR_CHAR_GROUPS[group], which is the character list for
the six group names but the inherited Object.prototype member for names
such as toString that passed the guard through the prototype chain. -/
def resolveCharGroup (g : Option String) : Except String JSGroupValue :=
  match g with
  | some s =>
    if isCharGroup (some s) then
      match AUTOPAIR_CHAR_GROUPS.lookup s with
      | some chars => .ok (.charList chars)
      | none => .ok (.inheritedMember s)
    else .error ("Invalid auto-pair char group: " ++ s)
  | none => .error "Invalid auto-pair char group: undefined"

/-- AutopairsOptions: a record of optional flags over the six groups;
`none` models an absent key. -/
structure AutopairsOptions where
  angleBrackets : Option Bool := none
  curlyBrackets : Option Bool := none
  roundBrackets : Option Bool := none
  squareBrackets : Option Bool := none
  doubleQuotes : Option Bool := none
  singleQuotes : Option Bool := none
deriving DecidableEq, Repr

/-- The configured value of a group, absent keys as `none`. -/
def AutopairsOptions.value (o : AutopairsOptions) : AutopairGroup → Option Bool
  | .angleBrackets => o.angleBrackets
  | .curlyBrackets => o.curlyBrackets
  | .roundBrackets => o.roundBrackets
  | .squareBrackets => o.squareBrackets
  | .doubleQuotes => o.doubleQuotes
  | .singleQuotes => o.singleQuotes

/-- The key order of the defaultConfig object literal, which is the
iteration order of Object.entries({...defaultConfig, ...options}) (both
variants write defaultConfig in this order). -/
def DEFAULT_GROUP_ORDER : List AutopairGroup :=
  [.angleBrackets, .curlyBrackets, .roundBrackets, .squareBrackets,
   .doubleQuotes, .singleQuotes]

/-- Object.entries(options) for the optional-field record: the present keys with
their values.  JS lists keys in insertion order; only emptiness and
membership of this list are used below, so the canonical defaultConfig
order stands in for the unknowable caller insertion order. -/
def AutopairsOptions.entries (o : AutopairsOptions) : List (AutopairGroup × Bool) :=
  DEFAULT_GROUP_ORDER.filterMap (fun g => (o.value g).map (fun b => (g, b)))

/-- autopairs.ts (package variant) getEnabledAutopairChars:
Object.entries({...defaultConfig, ...options}) — every group appears, the
configured value overriding the default true — filtered to the enabled
groups and flattened to their characters. -/
def getEnabledAutopairChars (options : AutopairsOptions) : List String :=
  (((DEFAULT_GROUP_ORDER.map (fun g => (g, (options.value g).getD true))).filter
      (fun p => p.2)).map (fun p => p.1.chars)).flatten

/-- config.ts (root variant) resolveCharsToHandle: all characters when the
configuration has no entries, otherwise the characters of the groups
explicitly set to true. -/
def resolveCharsToHandle (options : AutopairsOptions) : List String :=
  let entries := options.entries
  if entries.isEmpty then Chars.ALL_AUTOPAIR_CHARS
  else ((entries.filter (fun p => p.2)).map (fun p => p.1.chars)).flatten

/-- Definition following the spec sentence (section 4.4): the active
character set is the union of the character groups whose resolved flag
(explicit value, else default true) is true.  Stated from the spec words,
for comparison with the source definitions. -/
def specActiveChars (options : AutopairsOptions) : List String :=
  ((DEFAULT_GROUP_ORDER.filter (fun g => (options.value g).getD true)).map
      AutopairGroup.chars).flatten

/-- The value stored in the key-binding table: which handler factory the
builder bound to the key. -/
inductive HandlerTag where
  | autopairH (char : String)
  | backspaceH
deriving DecidableEq, Repr

/-- pairs.ts BACKSPACE. -/
def BACKSPACE : String := "Backspace"

/-- autopairs.ts (package variant) buildKeyBindings: one autopair handler
per enabled character, then the Backspace binding.  Later entries of the
object literal overwrite earlier ones, so lookups scan from the end. -/
def buildKeyBindings (options : AutopairsOptions) : List (String × HandlerTag) :=
  ((getEnabledAutopairChars options).map (fun c => (c, HandlerTag.autopairH c)))
    ++ [(BACKSPACE, HandlerTag.backspaceH)]

/-- Key lookup with JS object override semantics: the last write wins. -/
def lookupBinding (bindings : List (String × HandlerTag)) (key : String) : Option HandlerTag :=
  bindings.reverse.lookup key

/-- Runs the command a binding holds against an editor state. -/
def runBinding (tag : HandlerTag) (state : EditorState) : Option Edit :=
  match tag with
  | .autopairH c => createAutopairInputHandler (some c) state
  | .backspaceH => createBackspaceInputHandler state

example : resolveCharGroup (some "roundBrackets") = .ok (.charList ["(", ")"]) := rfl
example : (resolveCharGroup (some "bogus")).isOk = false := by decide
example : resolveCharGroup (some "toString") = .ok (.inheritedMember "toString") := rfl
example : getEnabledAutopairChars {} =
    ["<", ">", "\x7b", "\x7d", "(", ")", "[", "]", Pairs.DQ, Pairs.SQ] := by decide
example : resolveCharsToHandle { angleBrackets := some true } = ["<", ">"] := by decide
example : getEnabledAutopairChars { angleBrackets := some true }
    = getEnabledAutopairChars {} := by decide
example : lookupBinding (buildKeyBindings {}) BACKSPACE = some .backspaceH := by decide

theorem opening_mem_iff (c : String) :
    Pairs.isOpeningCharacter c = true ↔ c ∈ ["(", "[", "\x7b", "<", Pairs.DQ, Pairs.SQ] := by
  simp [Pairs.isOpeningCharacter, Pairs.ALL_OPENING_CHARS, Pairs.OPEN_CLOSE_MAPPING,
    List.contains, List.elem_iff]
  tauto

theorem closing_mem_iff (c : String) :
    Pairs.isClosingCharacter c = true ↔ c ∈ [")", "]", "\x7d", ">", Pairs.DQ, Pairs.SQ] := by
  simp [Pairs.isClosingCharacter, Pairs.ALL_CLOSING_CHARS, Pairs.OPEN_CLOSE_MAPPING,
    List.contains, List.elem_iff]
  tauto

theorem closing_is_matching (c : String) :
    Pairs.isClosingCharacter c = true → Pairs.isMatchingCharacter c = true := by
  intro h
  simp [Pairs.isMatchingCharacter, Pairs.ALL_AUTOPAIR_CHARS, List.contains, List.elem_iff,
    List.mem_append]
  simp [Pairs.isClosingCharacter, List.contains, List.elem_iff] at h
  tauto

theorem opening_is_matching (c : String) :
    Pairs.isOpeningCharacter c = true → Pairs.isMatchingCharacter c = true := by
  intro h
  simp [Pairs.isMatchingCharacter, Pairs.ALL_AUTOPAIR_CHARS, List.contains, List.elem_iff,
    List.mem_append]
  simp [Pairs.isOpeningCharacter, List.contains, List.elem_iff] at h
  tauto

/-- C3: in the package taxonomy (pairs.ts) the opening predicate holds
exactly for (, [, curly-open, <, and the two quotes, the closing predicate
exactly for their counterparts, and the quotes satisfy both while a
closing bracket is not opening and vice versa; but the root taxonomy
(chars.ts, cited at keymap.ts lines 198-207) tests membership in the full
character list, so there isOpeningChar accepts ) and isClosingChar
accepts (, contradicting the claim and the doc comments of those
functions. -/
theorem C3_opening_closing_predicates :
    (∀ c : String, Pairs.isOpeningCharacter c = true ↔
      c ∈ ["(", "[", "\x7b", "<", Pairs.DQ, Pairs.SQ]) ∧
    (∀ c : String, Pairs.isClosingCharacter c = true ↔
      c ∈ [")", "]", "\x7d", ">", Pairs.DQ, Pairs.SQ]) ∧
    Pairs.isOpeningCharacter Pairs.DQ = true ∧ Pairs.isClosingCharacter Pairs.DQ = true ∧
    Pairs.isOpeningCharacter Pairs.SQ = true ∧ Pairs.isClosingCharacter Pairs.SQ = true ∧
    Pairs.isOpeningCharacter ")" = false ∧ Pairs.isClosingCharacter "(" = false ∧
    Chars.isOpeningChar (some ")") = true ∧ Chars.isClosingChar (some "(") = true :=
  ⟨opening_mem_iff, closing_mem_iff, by decide, by decide, by decide, by decide,
   by decide, by decide, by decide, by decide⟩

/-- C2: selecting the whole text "wrap me" and typing ( does not wrap in
the package handler (part_006 createAutopairInputHandler): its guard
requires the typed character to be both opening and closing, which only
quotes satisfy, so the command returns unhandled; the root variant
createAutopairCommandForChar wraps the same input to "(wrap me)" with the
cursor at from + 9, as the claim, the README and the doc comments of
both functions describe. -/
theorem C2_wrap_selection_divergence :
    createAutopairInputHandler (some "(") (mkTextState "wrap me" 0 7) = none ∧
    createAutopairCommandForChar (some "(") (mkTextState "wrap me" 0 7)
      = some (Edit.replaceRange 0 7 "(wrap me)" 9) ∧
    applyEdit "wrap me" (Edit.replaceRange 0 7 "(wrap me)" 9) = ("(wrap me)", 9) ∧
    createAutopairInputHandler (some Pairs.DQ) (mkTextState "wrap me" 0 7)
      = some (Edit.replaceRange 0 7 (Pairs.DQ ++ "wrap me" ++ Pairs.DQ) 9) := by
  refine ⟨by decide, by decide, by decide, by decide⟩

/-- C6: the package backspace handler deletes exactly the range
[cursor - 1, cursor + 1) when the selection is an empty cursor, both
neighbor nodes are text nodes, and the characters around the cursor form a
valid opening-to-closing pair; in every other case it returns unhandled. -/
theorem C6_backspace_characterization (s : EditorState) :
    createBackspaceInputHandler s =
      if s.selEmpty && Utils.isTextNode s.nodeBefore && Utils.isTextNode s.nodeAfter
          && Pairs.isMatchingPair (charAtLast s.nodeBefore) (charAtFirst s.nodeAfter) then
        some (Edit.deleteRange (s.selFrom - 1) (s.selFrom + 1))
      else none := by
  unfold createBackspaceInputHandler
  cases hse : s.selEmpty <;> simp [hse]
  cases hA : Utils.isTextNode s.nodeBefore <;>
    cases hB : Utils.isTextNode s.nodeAfter <;> simp [hA, hB]

/-- C6 witness: between ( and ) the handler deletes both characters. -/
theorem C6_backspace_witness :
    createBackspaceInputHandler (mkTextState "()" 1 1) = some (Edit.deleteRange 0 2) :=
  (C6_backspace_characterization (mkTextState "()" 1 1)).trans (by decide)

/-- C8: with an empty cursor, a typed closing character and the skip check
passing (the text node after the cursor starts with that character), the
handler only moves the cursor one position forward; applying that edit
leaves the document text unchanged. -/
theorem C8_skip_over_frame (s : EditorState) (c : String)
    (hse : s.selEmpty = true)
    (hc : Pairs.isClosingCharacter c = true)
    (hskip : Utils.shouldSkipClosing s c = true) :
    createAutopairInputHandler (some c) s = some (Edit.moveCursor (s.selFrom + 1)) ∧
    applyEdit s.docText (Edit.moveCursor (s.selFrom + 1)) = (s.docText, s.selFrom + 1) := by
  refine ⟨?_, rfl⟩
  have hm := closing_is_matching c hc
  unfold createAutopairInputHandler
  simp [hm, hse, hc, hskip]

/-- C8 witness: cursor between ( and ), typing ) moves the cursor to 2 and
leaves the text "()" unchanged. -/
theorem C8_skip_over_witness :
    createAutopairInputHandler (some ")") (mkTextState "()" 1 1)
      = some (Edit.moveCursor 2) ∧
    applyEdit "()" (Edit.moveCursor 2) = ("()", 2) :=
  C8_skip_over_frame (mkTextState "()" 1 1) ")" (by decide) (by decide) (by decide)

/-- C5: for a quote at an empty cursor, auto-close is denied exactly when
a neighboring character is a word character; an absent or non-text
neighbor contributes the empty string, which is non-word, so a quote with
no neighbor on either side is permitted. -/
theorem C5_quote_word_adjacency (s : EditorState) (q : String)
    (hse : s.selEmpty = true) (hq : Pairs.isQuote q = true) :
    (Utils.shouldAutoClose s q = false ↔
      (Utils.testWordChar (Utils.charBeforeText s.nodeBefore)
        || Utils.testWordChar (Utils.charAfterText s.nodeAfter)) = true) ∧
    (s.nodeBefore = none → s.nodeAfter = none → Utils.shouldAutoClose s q = true) ∧
    (∀ nd : PMNode, nd.isText = false →
      Utils.charBeforeText (some nd) = "" ∧ Utils.charAfterText (some nd) = "") ∧
    Utils.testWordChar "" = false := by
  refine ⟨?_, ?_, ?_, by decide⟩
  · unfold Utils.shouldAutoClose Utils.isAdjacentToWordChar
    simp [hse, hq]
    cases hA : Utils.testWordChar (Utils.charBeforeText s.nodeBefore) <;> simp [hA]
  · intro hb ha
    unfold Utils.shouldAutoClose Utils.isAdjacentToWordChar
    simp [hse, hq, hb, ha, Utils.charBeforeText, Utils.charAfterText, Utils.testWordChar]
  · intro nd hnd
    unfold Utils.charBeforeText Utils.charAfterText
    simp [hnd]

/-- C5 witness: a double quote directly after the word "ab" is denied,
while a double quote in an empty document is permitted. -/
theorem C5_quote_word_adjacency_witness :
    Utils.shouldAutoClose (mkTextState "ab" 2 2) Pairs.DQ = false ∧
    Utils.shouldAutoClose (mkTextState "" 0 0) Pairs.DQ = true :=
  ⟨(C5_quote_word_adjacency (mkTextState "ab" 2 2) Pairs.DQ (by decide)
      (by decide)).1.mpr (by decide),
   (C5_quote_word_adjacency (mkTextState "" 0 0) Pairs.DQ (by decide)
      (by decide)).2.1 (by decide) (by decide)⟩

/-- C7 counterexample: a double quote typed at an empty cursor directly
before an existing double quote passes the auto-close check, yet the
handler performs the skip-over cursor move instead of inserting the pair. -/
theorem C7_counterexample :
    Pairs.isOpeningCharacter Pairs.DQ = true ∧
    (mkTextState Pairs.DQ 0 0).selEmpty = true ∧
    Utils.shouldAutoClose (mkTextState Pairs.DQ 0 0) Pairs.DQ = true ∧
    createAutopairInputHandler (some Pairs.DQ) (mkTextState Pairs.DQ 0 0)
      = some (Edit.moveCursor 1) ∧
    createAutopairInputHandler (some Pairs.DQ) (mkTextState Pairs.DQ 0 0)
      ≠ some (Edit.insertAt 0 (Pairs.DQ ++ jsConcat (Pairs.getClosingCharacter Pairs.DQ)) 1) := by
  refine ⟨by decide, by decide, by decide, by decide, by decide⟩

/-- C7 amended: typing an opening character at an empty cursor, when the
auto-close check permits and the skip-over check does not fire first
(relevant only for quotes), inserts the two-character pair at the cursor
and places the cursor between the two characters. -/
theorem C7_auto_close_amended (s : EditorState) (c : String)
    (hse : s.selEmpty = true)
    (hop : Pairs.isOpeningCharacter c = true)
    (hauto : Utils.shouldAutoClose s c = true)
    (hnoskip : (Pairs.isClosingCharacter c && Utils.shouldSkipClosing s c) = false) :
    createAutopairInputHandler (some c) s
      = some (Edit.insertAt s.selFrom
          (c ++ jsConcat (Pairs.getClosingCharacter c)) (s.selFrom + 1)) ∧
    (c ++ jsConcat (Pairs.getClosingCharacter c)).length = 2 := by
  have hm := opening_is_matching c hop
  refine ⟨?_, ?_⟩
  · unfold createAutopairInputHandler
    simp [hm, hse, hnoskip, hop, hauto]
  · have hmem := (opening_mem_iff c).mp hop
    simp only [List.mem_cons, List.not_mem_nil, or_false] at hmem
    rcases hmem with rfl | rfl | rfl | rfl | rfl | rfl <;> decide

/-- C7 witness: typing ( in an empty document inserts () and puts the
cursor between the parentheses. -/
theorem C7_auto_close_witness :
    createAutopairInputHandler (some "(") (mkTextState "" 0 0)
      = some (Edit.insertAt 0 ("(" ++ jsConcat (Pairs.getClosingCharacter "(")) 1) ∧
    applyEdit "" (Edit.insertAt 0 "()" 1) = ("()", 1) :=
  ⟨(C7_auto_close_amended (mkTextState "" 0 0) "(" (by decide) (by decide)
      (by decide) (by decide)).1, by decide⟩

/-- The guard of the wrap check of createAutopairInputHandler: known pair
character, non-empty selection, and the source condition that the
character be both opening and closing. -/
def wrapCheck (c : String) (s : EditorState) : Bool :=
  Pairs.isMatchingCharacter c && !(s.selEmpty) && Pairs.isOpeningCharacter c
    && Pairs.isClosingCharacter c

/-- The guard of the skip-over check: known pair character, empty
selection, closing character, and the next character equals it. -/
def skipCheck (c : String) (s : EditorState) : Bool :=
  Pairs.isMatchingCharacter c && s.selEmpty && Pairs.isClosingCharacter c
    && Utils.shouldSkipClosing s c

/-- The guard of the auto-close check: known pair character, empty
selection, opening character, and the adjacency policy permits. -/
def autoCloseCheck (c : String) (s : EditorState) : Bool :=
  Pairs.isMatchingCharacter c && s.selEmpty && Pairs.isOpeningCharacter c
    && Utils.shouldAutoClose s c

/-- The guard of the reject-unknown check. -/
def rejectCheck (c : String) : Bool := !(Pairs.isMatchingCharacter c)

/-- C4 counterexample: for a double quote typed at an empty cursor
directly before an existing double quote, the skip-over guard and the
auto-close guard hold simultaneously, so the five checks are not mutually
exclusive; the handler resolves the overlap in favor of skip-over. -/
theorem C4_counterexample :
    skipCheck Pairs.DQ (mkTextState Pairs.DQ 0 0) = true ∧
    autoCloseCheck Pairs.DQ (mkTextState Pairs.DQ 0 0) = true ∧
    createAutopairInputHandler (some Pairs.DQ) (mkTextState Pairs.DQ 0 0)
      = some (Edit.moveCursor 1) := by
  refine ⟨by decide, by decide, by decide⟩

/-- C4 amended: the reject-unknown and wrap guards are mutually exclusive
with every later guard, the skip-over and auto-close guards can hold
together only for a quote, and the handler evaluates the checks in source
order, so wrap fires whenever its guard holds and skip-over fires
whenever its guard holds (even when auto-close would also apply). -/
theorem C4_resolution_order_amended (c : String) (s : EditorState) :
    (rejectCheck c = true →
      wrapCheck c s = false ∧ skipCheck c s = false ∧ autoCloseCheck c s = false) ∧
    (wrapCheck c s = true → skipCheck c s = false ∧ autoCloseCheck c s = false) ∧
    (skipCheck c s = true → autoCloseCheck c s = true → Pairs.isQuote c = true) ∧
    (wrapCheck c s = true →
      createAutopairInputHandler (some c) s
        = some (Edit.replaceRange s.selFrom s.selTo
            (c ++ s.textBetween ++ jsConcat (Pairs.getClosingCharacter c))
            (s.selFrom
              + (c ++ s.textBetween ++ jsConcat (Pairs.getClosingCharacter c)).length))) ∧
    (skipCheck c s = true →
      createAutopairInputHandler (some c) s = some (Edit.moveCursor (s.selFrom + 1))) := by
  refine ⟨?_, ?_, ?_, ?_, ?_⟩
  · intro h
    simp [rejectCheck] at h
    simp [wrapCheck, skipCheck, autoCloseCheck, h]
  · intro h
    simp [wrapCheck, Bool.and_eq_true] at h
    obtain ⟨⟨⟨hm, hne⟩, hop⟩, hcl⟩ := h
    simp [skipCheck, autoCloseCheck, hne]
  · intro hs ha
    have hop : Pairs.isOpeningCharacter c = true := by
      simp [autoCloseCheck, Bool.and_eq_true] at ha
      tauto
    have hcl : Pairs.isClosingCharacter c = true := by
      simp [skipCheck, Bool.and_eq_true] at hs
      tauto
    have hmem := (opening_mem_iff c).mp hop
    simp only [List.mem_cons, List.not_mem_nil, or_false] at hmem
    rcases hmem with rfl | rfl | rfl | rfl | rfl | rfl <;>
      first
        | decide
        | exact absurd hcl (by decide)
  · intro h
    simp [wrapCheck, Bool.and_eq_true] at h
    obtain ⟨⟨⟨hm, hne⟩, hop⟩, hcl⟩ := h
    unfold createAutopairInputHandler
    simp [hm, hne, hop, hcl]
  · intro h
    simp [skipCheck, Bool.and_eq_true] at h
    obtain ⟨⟨⟨hm, hse⟩, hcl⟩, hsk⟩ := h
    unfold createAutopairInputHandler
    simp [hm, hse, hcl, hsk]

/-- C4 witness: the skip-priority branch of the amended theorem applied to
the overlapping quote input. -/
theorem C4_resolution_order_witness :
    createAutopairInputHandler (some Pairs.DQ) (mkTextState Pairs.DQ 0 0)
      = some (Edit.moveCursor ((mkTextState Pairs.DQ 0 0).selFrom + 1)) :=
  (C4_resolution_order_amended Pairs.DQ (mkTextState Pairs.DQ 0 0)).2.2.2.2 (by decide)

theorem mapFlagFilter (flag : AutopairGroup → Bool) (L : List AutopairGroup) :
    (((L.map (fun g => (g, flag g))).filter (fun p => p.2)).map
        (fun p : AutopairGroup × Bool => p.1.chars)).flatten
      = ((L.filter flag).map AutopairGroup.chars).flatten := by
  induction L with
  | nil => rfl
  | cons g l ih => cases h : flag g <;> simp [List.filter_cons, h, ih]

theorem group_mem_order (g : AutopairGroup) : g ∈ DEFAULT_GROUP_ORDER := by
  cases g <;> simp [DEFAULT_GROUP_ORDER]

theorem mem_entries (o : AutopairsOptions) (g : AutopairGroup) (b : Bool) :
    (g, b) ∈ o.entries ↔ o.value g = some b := by
  simp [AutopairsOptions.entries, List.mem_filterMap, Option.map_eq_some',
    Prod.mk.injEq, group_mem_order]

/-- C1 counterexample: a configuration naming only angleBrackets := true
makes resolveCharsToHandle return only the angle characters, omitting the
round brackets although that group was never explicitly disabled. -/
theorem C1_counterexample :
    resolveCharsToHandle { angleBrackets := some true } = ["<", ">"] ∧
    "(" ∉ resolveCharsToHandle { angleBrackets := some true } ∧
    getEnabledAutopairChars { angleBrackets := some true }
      = getEnabledAutopairChars {} := by
  refine ⟨by decide, by decide, by decide⟩

/-- C1 amended: the package resolver getEnabledAutopairChars merges the
configuration over the all-true defaults, so absent groups are enabled as
the claim states; the root resolver resolveCharsToHandle returns all
characters only for an entry-less configuration and otherwise exactly the
groups explicitly set to true, omitting absent groups. -/
theorem C1_active_chars_amended :
    (∀ o : AutopairsOptions, getEnabledAutopairChars o = specActiveChars o) ∧
    (∀ o : AutopairsOptions, o.entries = [] →
      resolveCharsToHandle o = Chars.ALL_AUTOPAIR_CHARS) ∧
    (∀ (o : AutopairsOptions) (c : String), o.entries ≠ [] →
      (c ∈ resolveCharsToHandle o ↔
        ∃ g : AutopairGroup, o.value g = some true ∧ c ∈ g.chars)) := by
  refine ⟨?_, ?_, ?_⟩
  · intro o
    exact mapFlagFilter (fun g => (o.value g).getD true) DEFAULT_GROUP_ORDER
  · intro o h
    simp [resolveCharsToHandle, h]
  · intro o c h
    have hne : o.entries.isEmpty = false := by
      cases he : o.entries
      · exact absurd he h
      · rfl
    unfold resolveCharsToHandle
    simp only [hne, Bool.false_eq_true, if_false]
    simp [List.mem_flatten, List.mem_map, List.mem_filter, Prod.exists, mem_entries]

/-- C1 witness: the empty configuration resolves to all characters, and
the angle-only configuration contains the angle opening character. -/
theorem C1_active_chars_witness :
    resolveCharsToHandle {} = Chars.ALL_AUTOPAIR_CHARS ∧
    "<" ∈ resolveCharsToHandle { angleBrackets := some true } :=
  ⟨C1_active_chars_amended.2.1 {} (by decide),
   (C1_active_chars_amended.2.2 { angleBrackets := some true } "<" (by decide)).mpr
     ⟨AutopairGroup.angleBrackets, by decide, by decide⟩⟩

/-- C9: group resolution does not err exactly on non-group names: the JS
in operator of the isCharGroup guard also finds the Object.prototype
property names, so for the input toString the guard passes and the
indexed read returns the inherited member, raising no error and yielding
no character list, against the claim and the throws documentation of the
function itself; the six group names behave as claimed (roundBrackets
yields its character list), a genuinely absent name errs, and the
character handlers stay total, answering undefined and every non-pair
string with the unhandled signal. -/
theorem C9_group_resolution_divergence :
    isCharGroup (some "toString") = true ∧
    resolveCharGroup (some "toString") = .ok (.inheritedMember "toString") ∧
    (resolveCharGroup (some "toString")).isOk = true ∧
    isCharListResult (resolveCharGroup (some "toString")) = false ∧
    resolveCharGroup (some "roundBrackets") = .ok (.charList ["(", ")"]) ∧
    isCharGroup (some "bogus") = false ∧
    (resolveCharGroup (some "bogus")).isOk = false ∧
    (∀ s : EditorState, createAutopairInputHandler none s = none) ∧
    (∀ (s : EditorState) (c : String), Pairs.isMatchingCharacter c = false →
      createAutopairInputHandler (some c) s = none) := by
  refine ⟨by decide, rfl, by decide, by decide, rfl, by decide, by decide,
    fun s => rfl, ?_⟩
  intro s c h
  unfold createAutopairInputHandler
  simp [h]

/-- C9 witness: the handler-totality branch of the divergence theorem
applied to a concrete non-pair character. -/
theorem C9_group_resolution_witness :
    createAutopairInputHandler (some "x") (mkTextState "" 0 0) = none :=
  C9_group_resolution_divergence.2.2.2.2.2.2.2.2 (mkTextState "" 0 0) "x" (by decide)

/-- The configuration disabling all six groups. -/
def allDisabled : AutopairsOptions :=
  { angleBrackets := some false, curlyBrackets := some false,
    roundBrackets := some false, squareBrackets := some false,
    doubleQuotes := some false, singleQuotes := some false }

/-- C10: every configuration binds Backspace to the same pair-delete
handler, which consults only the full pair mapping: with all groups
disabled the table holds no character binding, yet the Backspace binding
still deletes the round-bracket pair. -/
theorem C10_backspace_config_independent :
    (∀ o : AutopairsOptions,
      lookupBinding (buildKeyBindings o) BACKSPACE = some HandlerTag.backspaceH) ∧
    (∀ o1 o2 : AutopairsOptions,
      lookupBinding (buildKeyBindings o1) BACKSPACE
        = lookupBinding (buildKeyBindings o2) BACKSPACE) ∧
    getEnabledAutopairChars allDisabled = [] ∧
    lookupBinding (buildKeyBindings allDisabled) "(" = none ∧
    runBinding HandlerTag.backspaceH (mkTextState "()" 1 1)
      = some (Edit.deleteRange 0 2) := by
  have hb : ∀ o : AutopairsOptions,
      lookupBinding (buildKeyBindings o) BACKSPACE = some HandlerTag.backspaceH := by
    intro o
    simp [lookupBinding, buildKeyBindings, List.reverse_append, List.lookup]
  refine ⟨hb, fun o1 o2 => (hb o1).trans (hb o2).symm, by decide, by decide, by decide⟩
